import Mathlib

/-
  Verification development for the binary-souls peer-to-peer agent network.

  This file shallowly embeds the network core of the repository
  (crates/network: eventloop.rs, client.rs, types.rs, lib.rs, behaviour.rs)
  and proves properties of the embedded definitions.

  Modelling conventions:
  - Opaque libp2p identifiers (PeerId, kad::QueryId, OutboundRequestId,
    oneshot sender handles, response channels) are modelled as Nat.
  - Multiaddr values are opaque and modelled as List Nat.
  - Byte vectors (Vec<u8>) are modelled as List Nat.
  - The HashMap pending tables of EventLoop are modelled as association
    lists with unique keys; HashMap::remove is filtering the key out,
    HashMap::insert replaces an existing binding.
  - Rust panics (expect / unwrap with a missing value / todo!) are the
    error case of Except Panic; the error carries the panic message.
  - Calls into the libp2p swarm have two aspects: the side effect (recorded
    in an Output trace) and the immediate return value (supplied by a
    SwarmOracle argument, standing for what the library returned).
-/

/- Association-list operations mirroring std::collections::HashMap as used
   by the event loop (keys are unique in every reachable map). -/

def alookup (k : Nat) (m : List (Nat × Nat)) : Option Nat :=
  (m.find? (fun pr => pr.1 == k)).map Prod.snd

def aremove (k : Nat) (m : List (Nat × Nat)) : List (Nat × Nat) :=
  m.filter (fun pr => pr.1 != k)

def ainsert (k v : Nat) (m : List (Nat × Nat)) : List (Nat × Nat) :=
  (k, v) :: aremove k m

/- crates/network/src/types.rs: the Command enum (lines 8-41).
   Each reply-carrying variant's oneshot::Sender is modelled by a Nat sink
   id.  Note: there is no Bootstrap variant in the source enum, although
   client.rs line 48 sends one (see claim C8). -/

inductive Command where
  | startListening (addr : List Nat) (sender : Nat)
  | dial (peer_id : Nat) (peer_addr : List Nat) (sender : Nat)
  | startProviding (agent_name : String) (sender : Nat)
  | getProviders (agent_name : String) (sender : Nat)
  | requestAgent (agent_name : String) (message : String) (peer : Nat) (sender : Nat)
  | respondLLM (llm_output : List Nat) (channel : Nat)
  | gossipMessage (topic : String) (message : String)
deriving DecidableEq

/- The swarm events handled by EventLoop::handle_event
   (crates/network/src/eventloop.rs lines 132-766).  Arms of the Rust match
   whose body is only a tracing call are collapsed into the `other`
   constructor, exactly like the wildcard arm at line 761. -/

inductive SwarmEvt where
  | kadStartProvidingProgressed (id : Nat)
  | kadGetProvidersFound (id : Nat) (providers : List Nat)
  | kadGetProvidersFinished (id : Nat)
  | rrInboundRequest (agent_name : String) (message : String) (channel : Nat)
  | rrResponse (request_id : Nat) (body : List Nat)
  | rrOutboundFailure (request_id : Nat) (error : Nat)
  | connectionEstablished (peer : Nat) (isDialer : Bool)
  | outgoingConnectionError (peer : Option Nat) (error : Nat)
  | identifyReceived (observed_addr : List Nat)
  | rendezvousDiscovered (cookie : Nat) (regs : List (Nat × List Nat))
  | mdnsDiscovered (peers : List Nat)
  | mdnsExpired (peers : List Nat)
  | other
deriving DecidableEq

/- The observable actions of one loop iteration: completions of reply
   sinks, calls into the swarm/behaviour, and forwarded application
   events.  `bootstrapHook` stands for a call to a behaviour bootstrap
   hook; handle_command never emits it (claim C8). -/

inductive Output where
  | listenOn (addr : List Nat)
  | unitOk (sender : Nat)
  | unitErr (sender : Nat) (e : Nat)
  | providers (sender : Nat) (ps : List Nat)
  | bytesOk (sender : Nat) (body : List Nat)
  | bytesErr (sender : Nat) (e : Nat)
  | kadAddAddress (peer : Nat) (addr : List Nat)
  | swarmDial (peer : Nat) (addr : List Nat)
  | swarmDialAddr (addr : List Nat)
  | kadStartProviding (key : String)
  | kadGetProviders (key : String)
  | sendRequest (peer : Nat) (agent_name : String) (message : String)
  | sendResponse (channel : Nat) (body : List Nat)
  | gossipPublish (topic : String) (message : String)
  | eventInboundRequest (agent_name : String) (message : String) (channel : Nat)
  | queryFinish (id : Nat)
  | rendezvousRegister (peer : Nat)
  | rendezvousDiscover (nspace : Option Nat) (cookie : Option Nat)
  | addExternalAddress (addr : List Nat)
  | gossipAddExplicitPeer (peer : Nat)
  | gossipRemoveExplicitPeer (peer : Nat)
  | bootstrapHook
  | logOnly
deriving DecidableEq

/- A Rust panic, carrying the panic message. -/

structure Panic where
  message : String
deriving DecidableEq

def panicCompletedQuery : Panic := ⟨"Completed query to be previously pending."⟩
def panicRequestPending : Panic := ⟨"Request to still be pending."⟩
def panicAlreadyDialing : Panic := ⟨"not yet implemented: Already dialing peer."⟩

/- crates/network/src/eventloop.rs lines 31-44: the EventLoop state. -/

structure EventLoopState where
  pending_dial : List (Nat × Nat)
  pending_start_providing : List (Nat × Nat)
  pending_get_providers : List (Nat × Nat)
  pending_request : List (Nat × Nat)
  cookie : Option Nat
  nspace : Option Nat
  rendezvous_point : Option Nat
  rendezvous_point_address : Option (List Nat)
  external_address : Option (List Nat)
deriving DecidableEq

def emptyLoopState : EventLoopState :=
  ⟨[], [], [], [], none, none, none, none, none⟩

/- The immediate return values of the swarm calls made inside
   handle_command; errors are opaque Nat codes. -/

instance exceptDecEq {ε α : Type} [DecidableEq ε] [DecidableEq α] :
    DecidableEq (Except ε α)
  | .ok a, .ok b => decidable_of_iff (a = b) (by simp)
  | .error a, .error b => decidable_of_iff (a = b) (by simp)
  | .ok _, .error _ => .isFalse (fun h => Except.noConfusion h)
  | .error _, .ok _ => .isFalse (fun h => Except.noConfusion h)

structure SwarmOracle where
  listenResult : Except Nat Unit
  dialResult : Except Nat Unit
  startProvidingResult : Except Nat Nat
  getProvidersId : Nat
  sendRequestId : Nat
  sendResponseResult : Except Nat Unit
  publishResult : Except Nat Nat
deriving DecidableEq

def oracle0 : SwarmOracle :=
  ⟨.ok (), .ok (), .ok 0, 0, 0, .ok (), .ok 0⟩

/- crates/network/src/eventloop.rs lines 768-848: EventLoop::handle_command. -/

def handleCommand (s : EventLoopState) (c : Command) (o : SwarmOracle) :
    Except Panic (EventLoopState × List Output) :=
  match c with
  | .startListening addr sender =>
      -- lines 770-775: listen_on, reply Ok(()) or the bind error
      match o.listenResult with
      | .ok _ => .ok (s, [.listenOn addr, .unitOk sender])
      | .error e => .ok (s, [.listenOn addr, .unitErr sender e])
  | .dial peer_id peer_addr sender =>
      -- lines 776-790: vacant-entry check, kademlia.add_address, swarm.dial;
      -- the occupied branch is todo!("Already dialing peer.")
      match alookup peer_id s.pending_dial with
      | none =>
          match o.dialResult with
          | .ok _ =>
              .ok ({ s with pending_dial := ainsert peer_id sender s.pending_dial },
                   [.kadAddAddress peer_id peer_addr, .swarmDial peer_id peer_addr])
          | .error e =>
              .ok (s, [.kadAddAddress peer_id peer_addr, .unitErr sender e])
      | some _ => .error panicAlreadyDialing
  | .startProviding agent_name sender =>
      -- lines 791-805: on Ok register the query id, on Err log and drop sender
      match o.startProvidingResult with
      | .ok query_id =>
          .ok ({ s with pending_start_providing :=
                   ainsert query_id sender s.pending_start_providing },
               [.kadStartProviding agent_name])
      | .error _ => .ok (s, [.kadStartProviding agent_name, .logOnly])
  | .getProviders agent_name sender =>
      -- lines 806-813: issue the lookup and register the query id
      .ok ({ s with pending_get_providers :=
               ainsert o.getProvidersId sender s.pending_get_providers },
           [.kadGetProviders agent_name])
  | .requestAgent agent_name message peer sender =>
      -- lines 814-821: send_request and register the request id
      .ok ({ s with pending_request := ainsert o.sendRequestId sender s.pending_request },
           [.sendRequest peer agent_name message])
  | .respondLLM llm_output channel =>
      -- lines 822-834: send_response; on Err only log
      match o.sendResponseResult with
      | .ok _ => .ok (s, [.sendResponse channel llm_output])
      | .error _ => .ok (s, [.logOnly])
  | .gossipMessage topic message =>
      -- lines 835-846: publish; log either way
      match o.publishResult with
      | .ok _ => .ok (s, [.gossipPublish topic message])
      | .error _ => .ok (s, [.logOnly])

/- crates/network/src/eventloop.rs lines 132-766: EventLoop::handle_event
   (arms relevant to the pending tables; log-only arms are `other`). -/

def handleEvent (s : EventLoopState) (e : SwarmEvt) :
    Except Panic (EventLoopState × List Output) :=
  match e with
  | .kadStartProvidingProgressed id =>
      -- lines 135-148: remove + expect("Completed query to be previously pending.")
      match alookup id s.pending_start_providing with
      | some sender =>
          .ok ({ s with pending_start_providing := aremove id s.pending_start_providing },
               [.unitOk sender])
      | none => .error panicCompletedQuery
  | .kadGetProvidersFound id ps =>
      -- lines 149-168: if let Some(sender) = remove(..); send and finish the query
      match alookup id s.pending_get_providers with
      | some sender =>
          .ok ({ s with pending_get_providers := aremove id s.pending_get_providers },
               [.providers sender ps, .queryFinish id])
      | none => .ok (s, [])
  | .kadGetProvidersFinished _ =>
      -- lines 169-180: FinishedWithNoAdditionalRecord is only logged
      .ok (s, [.logOnly])
  | .rrInboundRequest agent_name message channel =>
      -- lines 476-490: forward an InboundRequest event to the application
      .ok (s, [.eventInboundRequest agent_name message channel])
  | .rrResponse request_id body =>
      -- lines 491-502: remove + expect("Request to still be pending."), send Ok(body)
      match alookup request_id s.pending_request with
      | some sender =>
          .ok ({ s with pending_request := aremove request_id s.pending_request },
               [.bytesOk sender body])
      | none => .error panicRequestPending
  | .rrOutboundFailure request_id error =>
      -- lines 508-516: remove + expect("Request to still be pending."), send Err
      match alookup request_id s.pending_request with
      | some sender =>
          .ok ({ s with pending_request := aremove request_id s.pending_request },
               [.bytesErr sender error])
      | none => .error panicRequestPending
  | .connectionEstablished peer isDialer =>
      -- lines 542-557: complete a pending dial when dialer, then rendezvous register
      match isDialer, alookup peer s.pending_dial with
      | true, some sender =>
          .ok ({ s with pending_dial := aremove peer s.pending_dial },
               [.unitOk sender, .rendezvousRegister peer])
      | _, _ => .ok (s, [.rendezvousRegister peer])
  | .outgoingConnectionError peer _error =>
      -- lines 561-567: complete a pending dial (if any) with the error
      match peer with
      | some p =>
          match alookup p s.pending_dial with
          | some sender =>
              .ok ({ s with pending_dial := aremove p s.pending_dial },
                   [.unitErr sender _error])
          | none => .ok (s, [])
      | none => .ok (s, [])
  | .identifyReceived observed_addr =>
      -- lines 615-622: record the observed address as external
      .ok (s, [.addExternalAddress observed_addr])
  | .rendezvousDiscovered cookie regs =>
      -- lines 642-663: replace the cookie and dial every discovered address
      .ok ({ s with cookie := some cookie },
           regs.map (fun r => Output.swarmDial r.1 r.2))
  | .mdnsDiscovered peers =>
      -- lines 694-699: add explicit gossip peers
      .ok (s, peers.map Output.gossipAddExplicitPeer)
  | .mdnsExpired peers =>
      -- lines 700-705: remove explicit gossip peers
      .ok (s, peers.map Output.gossipRemoveExplicitPeer)
  | .other =>
      .ok (s, [.logOnly])

/- crates/network/src/eventloop.rs lines 104-130: EventLoop::run.
   One LoopInput per wake-up of the tokio select; exactly one branch
   fires.  `cancelled` is the cancellation token firing (break),
   `channelClosed` is the command channel returning None (return). -/

inductive LoopInput where
  | cancelled
  | swarm (e : SwarmEvt)
  | command (c : Command) (o : SwarmOracle)
  | channelClosed
  | tick
deriving DecidableEq

/- The result of driving the loop on a list of inputs: `returned` when the
   loop exits (cancellation or closed command channel), dropping the state
   (and with it every pending reply sink); `panicked` when a handler
   panicked; `ranOut` when the input list is exhausted with the loop still
   alive. The Output trace accumulates everything emitted so far. -/

inductive RunResult where
  | returned (finalState : EventLoopState) (outs : List Output)
  | panicked (p : Panic) (outs : List Output)
  | ranOut (s : EventLoopState) (outs : List Output)
deriving DecidableEq

def runLoop (s : EventLoopState) (inputs : List LoopInput) (acc : List Output) :
    RunResult :=
  match inputs with
  | [] => .ranOut s acc
  | .cancelled :: _ => .returned s acc
  | .channelClosed :: _ => .returned s acc
  | .swarm e :: rest =>
      match handleEvent s e with
      | .ok (s', outs) => runLoop s' rest (acc ++ outs)
      | .error p => .panicked p acc
  | .command c o :: rest =>
      match handleCommand s c o with
      | .ok (s', outs) => runLoop s' rest (acc ++ outs)
      | .error p => .panicked p acc
  | .tick :: rest =>
      -- the tick branch is guarded by rendezvous_point.is_some()
      match s.rendezvous_point with
      | some _ => runLoop s rest (acc ++ [.rendezvousDiscover s.nspace s.cookie])
      | none => runLoop s rest acc

/- run() lines 107-109: add_external_address, dial_rendezvous_point_address,
   register_rendezvous_point executed before the select loop. -/

def startupOutputs (s : EventLoopState) : List Output :=
  (match s.external_address with
   | some a => [Output.addExternalAddress a]
   | none => []) ++
  (match s.rendezvous_point_address with
   | some a => [Output.swarmDialAddr a]
   | none => []) ++
  (match s.rendezvous_point with
   | some p => [Output.rendezvousRegister p]
   | none => [Output.logOnly])

def run (s : EventLoopState) (inputs : List LoopInput) : RunResult :=
  runLoop s inputs (startupOutputs s)

/- Client-side view of a oneshot receiver after the loop has finished:
   an output completing sink σ was sent before the sender was dropped.
   When the loop returned without ever completing σ, the sender is dropped
   with the state and `receiver.await` yields the Canceled (closed-channel)
   error. -/

def completes (σ : Nat) : Output → Bool
  | .unitOk s => s == σ
  | .unitErr s _ => s == σ
  | .providers s _ => s == σ
  | .bytesOk s _ => s == σ
  | .bytesErr s _ => s == σ
  | _ => false

def observesClosedChannel (σ : Nat) : RunResult → Bool
  | .returned _ outs => !(outs.any (completes σ))
  | _ => false

/- The sink id named by a command's reply sender, if it has one. -/

def cmdSink : Command → Option Nat
  | .startListening _ sender => some sender
  | .dial _ _ sender => some sender
  | .startProviding _ sender => some sender
  | .getProviders _ sender => some sender
  | .requestAgent _ _ _ sender => some sender
  | .respondLLM _ _ => none
  | .gossipMessage _ _ => none

/- σ does not occur as a reply sink anywhere in the pending tables. -/

def sinkUnused (σ : Nat) (s : EventLoopState) : Prop :=
  σ ∉ s.pending_dial.map Prod.snd ∧
  σ ∉ s.pending_start_providing.map Prod.snd ∧
  σ ∉ s.pending_get_providers.map Prod.snd ∧
  σ ∉ s.pending_request.map Prod.snd

instance (σ : Nat) (s : EventLoopState) : Decidable (sinkUnused σ s) := by
  unfold sinkUnused; infer_instance

/- σ occurs in the pending tables at most as the pending_request entry for
   request id rid. -/

def sinkFresh (σ rid : Nat) (s : EventLoopState) : Prop :=
  σ ∉ s.pending_dial.map Prod.snd ∧
  σ ∉ s.pending_start_providing.map Prod.snd ∧
  σ ∉ s.pending_get_providers.map Prod.snd ∧
  ∀ pr ∈ s.pending_request, pr.2 = σ → pr.1 = rid

/- A loop input that neither carries the terminal for request id rid nor
   registers σ as a new reply sink. -/

def inputSafe (rid σ : Nat) : LoopInput → Prop
  | .swarm (.rrResponse r _) => r ≠ rid
  | .swarm (.rrOutboundFailure r _) => r ≠ rid
  | .command c _ => cmdSink c ≠ some σ
  | _ => True

/- ------------------------------------------------------------------
   crates/network/src/lib.rs (construction entry point) and
   crates/network/src/behaviour.rs (AsnBehaviour).
   ------------------------------------------------------------------ -/

namespace NetworkLib

/- crates/network/src/lib.rs line 26. -/
def PROTOCOL_VERSION : String := "/agentic-network/1.0.0"

/- crates/network/src/lib.rs line 27. -/
def EVERYONE_TOPIC : String := "everyone"

end NetworkLib

namespace AsnBehaviourMod

/- crates/network/src/behaviour.rs line 16. -/
def PROTOCOL_VERSION : String := "/asn/1.0.0"

/- crates/network/src/behaviour.rs lines 17-18. -/
def EVERYONE_TOPIC : String := "everyone"
def CAPABILITIES_TOPIC : String := "capabilities"

/- behaviour.rs lines 105-111: the topics AsnBehaviour::bootstrap
   subscribes to. -/
def bootstrapSubscribeTopics : List String := [EVERYONE_TOPIC, CAPABILITIES_TOPIC]

end AsnBehaviourMod

/- The identify protocol-version string and the request_response stream
   protocol string of a constructed behaviour. -/

structure NodeProtocols where
  identify_protocol_version : String
  request_response_stream_protocol : String
deriving DecidableEq

/- lib.rs lines 52-64: `new` configures identify with PROTOCOL_VERSION and
   request_response with StreamProtocol::new(PROTOCOL_VERSION). -/

def newNodeProtocols : NodeProtocols :=
  ⟨NetworkLib.PROTOCOL_VERSION, NetworkLib.PROTOCOL_VERSION⟩

/- behaviour.rs lines 41-52: AsnBehaviour::new does the same with its own
   PROTOCOL_VERSION.  Note lib.rs never declares `mod behaviour`, and no
   code constructs AsnBehaviour; `new` in lib.rs builds its Behaviour
   inline. -/

def asnBehaviourProtocols : NodeProtocols :=
  ⟨AsnBehaviourMod.PROTOCOL_VERSION, AsnBehaviourMod.PROTOCOL_VERSION⟩

/- lib.rs lines 99-115: the gossipsub subscribe calls made by `new`:
   EVERYONE_TOPIC, then the topic named by peer_id.to_base58(), then each
   additional topic. -/

def newSubscribeTopics (peer_id_topic : String) (additional_topics : List String) :
    List String :=
  [NetworkLib.EVERYONE_TOPIC, peer_id_topic] ++ additional_topics

/- The topics a node constructed by new(seed, additional_topics) is
   subscribed to after the AsnBehaviour::bootstrap hook has also run
   (gossipsub subscription is idempotent, so the subscribed set is the set
   of topics named by the subscribe calls). -/

def subscribedAfterBootstrap (peer_id_topic : String) (additional_topics : List String) :
    List String :=
  newSubscribeTopics peer_id_topic additional_topics ++
    AsnBehaviourMod.bootstrapSubscribeTopics

/- peer_id.to_base58() for the Ed25519 keypair derived from secret key
   seed byte 1 (32-byte secret: first byte 1, rest zero): computed per
   RFC 8032 key generation, libp2p protobuf PublicKey encoding, identity
   multihash, base58btc.  This is the well-known libp2p example peer id
   for seed 1. -/

def seed1PeerIdTopic : String := "12D3KooWPjceQrSwdWXPyLLeABRXmuqt69Rg3sBYbU1Nft9HyQ6X"

/- ------------------------------------------------------------------
   lib.rs lines 33-42: identity derivation.
   ------------------------------------------------------------------ -/

/- The 32-byte buffer: bytes[0] = seed, remaining 31 bytes zero. -/

def seedBytes (seed : Nat) : List Nat := seed :: List.replicate 31 0

/- The source of the node's key pair: deterministic derivation from a
   byte buffer (identity::Keypair::ed25519_from_bytes) or fresh random
   generation (generate_ed25519, whose entropy is an explicit argument
   here). -/

inductive KeypairSource where
  | ed25519_from_bytes (bytes : List Nat)
  | generate_ed25519 (entropy : Nat)
deriving DecidableEq

def id_keys (secret_key_seed : Option Nat) (entropy : Nat) : KeypairSource :=
  match secret_key_seed with
  | some seed => .ed25519_from_bytes (seedBytes seed)
  | none => .generate_ed25519 entropy

/- The peer id is a pure function (hash) of the key pair's public key. -/

structure DerivedPeerId where
  source : KeypairSource
deriving DecidableEq

def to_peer_id (k : KeypairSource) : DerivedPeerId := ⟨k⟩

/- ------------------------------------------------------------------
   Helper lemmas.
   ------------------------------------------------------------------ -/

theorem alookup_ainsert_self (k v : Nat) (m : List (Nat × Nat)) :
    alookup k (ainsert k v m) = some v := by
  simp [alookup, ainsert, List.find?]

theorem alookup_aremove_self (k : Nat) (m : List (Nat × Nat)) :
    alookup k (aremove k m) = none := by
  have hnone : (aremove k m).find? (fun pr => pr.1 == k) = none := by
    rw [List.find?_eq_none]
    intro pr hpr
    have h2 := List.of_mem_filter hpr
    simp only [bne_iff_ne, ne_eq] at h2
    simpa using h2
  simp [alookup, hnone]

theorem mem_of_mem_aremove {x : Nat × Nat} {k : Nat} {m : List (Nat × Nat)}
    (h : x ∈ aremove k m) : x ∈ m :=
  List.mem_of_mem_filter h

theorem snd_mem_of_mem_aremove {v k : Nat} {m : List (Nat × Nat)}
    (h : v ∈ (aremove k m).map Prod.snd) : v ∈ m.map Prod.snd := by
  obtain ⟨pr, hpr, rfl⟩ := List.mem_map.mp h
  exact List.mem_map.mpr ⟨pr, mem_of_mem_aremove hpr, rfl⟩

theorem snd_mem_of_mem_ainsert {x k v : Nat} {m : List (Nat × Nat)}
    (h : x ∈ (ainsert k v m).map Prod.snd) : x = v ∨ x ∈ m.map Prod.snd := by
  simp only [ainsert, List.map_cons, List.mem_cons] at h
  rcases h with h | h
  · exact Or.inl h
  · exact Or.inr (snd_mem_of_mem_aremove h)

theorem alookup_mem {k v : Nat} {m : List (Nat × Nat)}
    (h : alookup k m = some v) : (k, v) ∈ m := by
  cases hf : m.find? (fun pr => pr.1 == k) with
  | none => simp [alookup, hf] at h
  | some pr =>
      simp only [alookup, hf, Option.map_some', Option.some.injEq] at h
      have hmem := List.mem_of_find?_eq_some hf
      have hp := List.find?_some hf
      simp only [beq_iff_eq] at hp
      have : pr = (k, v) := Prod.ext hp h
      rwa [this] at hmem

theorem snd_mem_of_alookup {k v : Nat} {m : List (Nat × Nat)}
    (h : alookup k m = some v) : v ∈ m.map Prod.snd :=
  List.mem_map.mpr ⟨(k, v), alookup_mem h, rfl⟩

theorem sinkFresh_of_sinkUnused {σ rid : Nat} {s : EventLoopState}
    (h : sinkUnused σ s) : sinkFresh σ rid s := by
  obtain ⟨h1, h2, h3, h4⟩ := h
  refine ⟨h1, h2, h3, fun pr hpr he => ?_⟩
  exact absurd (List.mem_map.mpr ⟨pr, hpr, he⟩) h4

theorem not_snd_mem_ainsert {σ k v : Nat} {m : List (Nat × Nat)}
    (hv : v ≠ σ) (hm : σ ∉ m.map Prod.snd) : σ ∉ (ainsert k v m).map Prod.snd := by
  intro hmem
  rcases snd_mem_of_mem_ainsert hmem with h | h
  · exact hv h.symm
  · exact hm h

theorem not_snd_mem_aremove {σ k : Nat} {m : List (Nat × Nat)}
    (hm : σ ∉ m.map Prod.snd) : σ ∉ (aremove k m).map Prod.snd :=
  fun hmem => hm (snd_mem_of_mem_aremove hmem)

theorem req_fresh_ainsert {σ rid k v : Nat} {m : List (Nat × Nat)}
    (hv : v ≠ σ) (hm : ∀ pr ∈ m, pr.2 = σ → pr.1 = rid) :
    ∀ pr ∈ ainsert k v m, pr.2 = σ → pr.1 = rid := by
  intro pr hpr he
  rcases List.mem_cons.mp hpr with rfl | hpr2
  · exact absurd he hv
  · exact hm pr (mem_of_mem_aremove hpr2) he

theorem req_fresh_aremove {σ rid k : Nat} {m : List (Nat × Nat)}
    (hm : ∀ pr ∈ m, pr.2 = σ → pr.1 = rid) :
    ∀ pr ∈ aremove k m, pr.2 = σ → pr.1 = rid :=
  fun pr hpr => hm pr (mem_of_mem_aremove hpr)

theorem ne_of_alookup_of_not_mem {σ k v : Nat} {m : List (Nat × Nat)}
    (hm : σ ∉ m.map Prod.snd) (hl : alookup k m = some v) : v ≠ σ :=
  fun he => hm (he ▸ snd_mem_of_alookup hl)

theorem sender_ne_of_alookup_ne_rid {σ rid r v : Nat} {m : List (Nat × Nat)}
    (hr : r ≠ rid) (hm : ∀ pr ∈ m, pr.2 = σ → pr.1 = rid)
    (hl : alookup r m = some v) : v ≠ σ :=
  fun he => hr (hm (r, v) (alookup_mem hl) he)

/- One command step neither completes a sink other than its own sender
   nor introduces σ into the pending tables, provided the command's sender
   is not σ. -/

theorem handleCommand_safe {σ rid : Nat} {s : EventLoopState} {c : Command}
    {o : SwarmOracle} {s' : EventLoopState} {outs : List Output}
    (hfresh : sinkFresh σ rid s) (hc : cmdSink c ≠ some σ)
    (h : handleCommand s c o = .ok (s', outs)) :
    sinkFresh σ rid s' ∧ ∀ out ∈ outs, completes σ out = false := by
  obtain ⟨h1, h2, h3, h4⟩ := hfresh
  cases c with
  | startListening addr sender =>
      have hs : sender ≠ σ := fun hq => hc (by simp [cmdSink, hq])
      cases hl : o.listenResult with
      | ok u =>
          simp only [handleCommand, hl, Except.ok.injEq, Prod.mk.injEq] at h
          obtain ⟨rfl, rfl⟩ := h
          exact ⟨⟨h1, h2, h3, h4⟩, by
            intro out hout
            rcases List.mem_cons.mp hout with rfl | hout2
            · rfl
            · rcases List.mem_singleton.mp hout2 with rfl
              simp [completes, beq_false_of_ne hs]⟩
      | error e =>
          simp only [handleCommand, hl, Except.ok.injEq, Prod.mk.injEq] at h
          obtain ⟨rfl, rfl⟩ := h
          exact ⟨⟨h1, h2, h3, h4⟩, by
            intro out hout
            rcases List.mem_cons.mp hout with rfl | hout2
            · rfl
            · rcases List.mem_singleton.mp hout2 with rfl
              simp [completes, beq_false_of_ne hs]⟩
  | dial peer_id peer_addr sender =>
      have hs : sender ≠ σ := fun hq => hc (by simp [cmdSink, hq])
      cases hd : alookup peer_id s.pending_dial with
      | some v => simp [handleCommand, hd] at h
      | none =>
          cases hr : o.dialResult with
          | ok u =>
              simp only [handleCommand, hd, hr, Except.ok.injEq, Prod.mk.injEq] at h
              obtain ⟨rfl, rfl⟩ := h
              refine ⟨⟨not_snd_mem_ainsert hs h1, h2, h3, h4⟩, ?_⟩
              intro out hout
              rcases List.mem_cons.mp hout with rfl | hout2
              · rfl
              · rcases List.mem_singleton.mp hout2 with rfl; rfl
          | error e =>
              simp only [handleCommand, hd, hr, Except.ok.injEq, Prod.mk.injEq] at h
              obtain ⟨rfl, rfl⟩ := h
              refine ⟨⟨h1, h2, h3, h4⟩, ?_⟩
              intro out hout
              rcases List.mem_cons.mp hout with rfl | hout2
              · rfl
              · rcases List.mem_singleton.mp hout2 with rfl
                simp [completes, beq_false_of_ne hs]
  | startProviding agent_name sender =>
      have hs : sender ≠ σ := fun hq => hc (by simp [cmdSink, hq])
      cases hr : o.startProvidingResult with
      | ok qid =>
          simp only [handleCommand, hr, Except.ok.injEq, Prod.mk.injEq] at h
          obtain ⟨rfl, rfl⟩ := h
          refine ⟨⟨h1, not_snd_mem_ainsert hs h2, h3, h4⟩, ?_⟩
          intro out hout
          rcases List.mem_singleton.mp hout with rfl; rfl
      | error e =>
          simp only [handleCommand, hr, Except.ok.injEq, Prod.mk.injEq] at h
          obtain ⟨rfl, rfl⟩ := h
          refine ⟨⟨h1, h2, h3, h4⟩, ?_⟩
          intro out hout
          rcases List.mem_cons.mp hout with rfl | hout2
          · rfl
          · rcases List.mem_singleton.mp hout2 with rfl; rfl
  | getProviders agent_name sender =>
      have hs : sender ≠ σ := fun hq => hc (by simp [cmdSink, hq])
      simp only [handleCommand, Except.ok.injEq, Prod.mk.injEq] at h
      obtain ⟨rfl, rfl⟩ := h
      refine ⟨⟨h1, h2, not_snd_mem_ainsert hs h3, h4⟩, ?_⟩
      intro out hout
      rcases List.mem_singleton.mp hout with rfl; rfl
  | requestAgent agent_name message peer sender =>
      have hs : sender ≠ σ := fun hq => hc (by simp [cmdSink, hq])
      simp only [handleCommand, Except.ok.injEq, Prod.mk.injEq] at h
      obtain ⟨rfl, rfl⟩ := h
      refine ⟨⟨h1, h2, h3, req_fresh_ainsert hs h4⟩, ?_⟩
      intro out hout
      rcases List.mem_singleton.mp hout with rfl; rfl
  | respondLLM llm_output channel =>
      cases hr : o.sendResponseResult with
      | ok u =>
          simp only [handleCommand, hr, Except.ok.injEq, Prod.mk.injEq] at h
          obtain ⟨rfl, rfl⟩ := h
          refine ⟨⟨h1, h2, h3, h4⟩, ?_⟩
          intro out hout
          rcases List.mem_singleton.mp hout with rfl; rfl
      | error e =>
          simp only [handleCommand, hr, Except.ok.injEq, Prod.mk.injEq] at h
          obtain ⟨rfl, rfl⟩ := h
          refine ⟨⟨h1, h2, h3, h4⟩, ?_⟩
          intro out hout
          rcases List.mem_singleton.mp hout with rfl; rfl
  | gossipMessage topic message =>
      cases hr : o.publishResult with
      | ok mid =>
          simp only [handleCommand, hr, Except.ok.injEq, Prod.mk.injEq] at h
          obtain ⟨rfl, rfl⟩ := h
          refine ⟨⟨h1, h2, h3, h4⟩, ?_⟩
          intro out hout
          rcases List.mem_singleton.mp hout with rfl; rfl
      | error e =>
          simp only [handleCommand, hr, Except.ok.injEq, Prod.mk.injEq] at h
          obtain ⟨rfl, rfl⟩ := h
          refine ⟨⟨h1, h2, h3, h4⟩, ?_⟩
          intro out hout
          rcases List.mem_singleton.mp hout with rfl; rfl

/- One event step completes only sinks drawn from the pending tables, so
   it never completes σ as long as e does not carry the terminal for rid
   and σ is fresh; freshness is preserved. -/

theorem handleEvent_safe {σ rid : Nat} {s : EventLoopState} {e : SwarmEvt}
    {s' : EventLoopState} {outs : List Output}
    (hfresh : sinkFresh σ rid s) (he : inputSafe rid σ (.swarm e))
    (h : handleEvent s e = .ok (s', outs)) :
    sinkFresh σ rid s' ∧ ∀ out ∈ outs, completes σ out = false := by
  obtain ⟨h1, h2, h3, h4⟩ := hfresh
  cases e with
  | kadStartProvidingProgressed id =>
      cases hl : alookup id s.pending_start_providing with
      | none => simp [handleEvent, hl] at h
      | some sender =>
          have hs : sender ≠ σ := ne_of_alookup_of_not_mem h2 hl
          simp only [handleEvent, hl, Except.ok.injEq, Prod.mk.injEq] at h
          obtain ⟨rfl, rfl⟩ := h
          refine ⟨⟨h1, not_snd_mem_aremove h2, h3, h4⟩, ?_⟩
          intro out hout
          rcases List.mem_singleton.mp hout with rfl
          simp [completes, beq_false_of_ne hs]
  | kadGetProvidersFound id ps =>
      cases hl : alookup id s.pending_get_providers with
      | none =>
          simp only [handleEvent, hl, Except.ok.injEq, Prod.mk.injEq] at h
          obtain ⟨rfl, rfl⟩ := h
          exact ⟨⟨h1, h2, h3, h4⟩, by intro out hout; cases hout⟩
      | some sender =>
          have hs : sender ≠ σ := ne_of_alookup_of_not_mem h3 hl
          simp only [handleEvent, hl, Except.ok.injEq, Prod.mk.injEq] at h
          obtain ⟨rfl, rfl⟩ := h
          refine ⟨⟨h1, h2, not_snd_mem_aremove h3, h4⟩, ?_⟩
          intro out hout
          rcases List.mem_cons.mp hout with rfl | hout2
          · simp [completes, beq_false_of_ne hs]
          · rcases List.mem_singleton.mp hout2 with rfl; rfl
  | kadGetProvidersFinished id =>
      simp only [handleEvent, Except.ok.injEq, Prod.mk.injEq] at h
      obtain ⟨rfl, rfl⟩ := h
      refine ⟨⟨h1, h2, h3, h4⟩, ?_⟩
      intro out hout
      rcases List.mem_singleton.mp hout with rfl; rfl
  | rrInboundRequest a m ch =>
      simp only [handleEvent, Except.ok.injEq, Prod.mk.injEq] at h
      obtain ⟨rfl, rfl⟩ := h
      refine ⟨⟨h1, h2, h3, h4⟩, ?_⟩
      intro out hout
      rcases List.mem_singleton.mp hout with rfl; rfl
  | rrResponse r b =>
      have hr : r ≠ rid := he
      cases hl : alookup r s.pending_request with
      | none => simp [handleEvent, hl] at h
      | some sender =>
          have hs : sender ≠ σ := sender_ne_of_alookup_ne_rid hr h4 hl
          simp only [handleEvent, hl, Except.ok.injEq, Prod.mk.injEq] at h
          obtain ⟨rfl, rfl⟩ := h
          refine ⟨⟨h1, h2, h3, req_fresh_aremove h4⟩, ?_⟩
          intro out hout
          rcases List.mem_singleton.mp hout with rfl
          simp [completes, beq_false_of_ne hs]
  | rrOutboundFailure r err =>
      have hr : r ≠ rid := he
      cases hl : alookup r s.pending_request with
      | none => simp [handleEvent, hl] at h
      | some sender =>
          have hs : sender ≠ σ := sender_ne_of_alookup_ne_rid hr h4 hl
          simp only [handleEvent, hl, Except.ok.injEq, Prod.mk.injEq] at h
          obtain ⟨rfl, rfl⟩ := h
          refine ⟨⟨h1, h2, h3, req_fresh_aremove h4⟩, ?_⟩
          intro out hout
          rcases List.mem_singleton.mp hout with rfl
          simp [completes, beq_false_of_ne hs]
  | connectionEstablished peer isDialer =>
      cases isDialer with
      | true =>
          cases hl : alookup peer s.pending_dial with
          | none =>
              simp only [handleEvent, hl, Except.ok.injEq, Prod.mk.injEq] at h
              obtain ⟨rfl, rfl⟩ := h
              refine ⟨⟨h1, h2, h3, h4⟩, ?_⟩
              intro out hout
              rcases List.mem_singleton.mp hout with rfl; rfl
          | some sender =>
              have hs : sender ≠ σ := ne_of_alookup_of_not_mem h1 hl
              simp only [handleEvent, hl, Except.ok.injEq, Prod.mk.injEq] at h
              obtain ⟨rfl, rfl⟩ := h
              refine ⟨⟨not_snd_mem_aremove h1, h2, h3, h4⟩, ?_⟩
              intro out hout
              rcases List.mem_cons.mp hout with rfl | hout2
              · simp [completes, beq_false_of_ne hs]
              · rcases List.mem_singleton.mp hout2 with rfl; rfl
      | false =>
          simp only [handleEvent, Except.ok.injEq, Prod.mk.injEq] at h
          obtain ⟨rfl, rfl⟩ := h
          refine ⟨⟨h1, h2, h3, h4⟩, ?_⟩
          intro out hout
          rcases List.mem_singleton.mp hout with rfl; rfl
  | outgoingConnectionError peer err =>
      cases peer with
      | none =>
          simp only [handleEvent, Except.ok.injEq, Prod.mk.injEq] at h
          obtain ⟨rfl, rfl⟩ := h
          exact ⟨⟨h1, h2, h3, h4⟩, by intro out hout; cases hout⟩
      | some p =>
          cases hl : alookup p s.pending_dial with
          | none =>
              simp only [handleEvent, hl, Except.ok.injEq, Prod.mk.injEq] at h
              obtain ⟨rfl, rfl⟩ := h
              exact ⟨⟨h1, h2, h3, h4⟩, by intro out hout; cases hout⟩
          | some sender =>
              have hs : sender ≠ σ := ne_of_alookup_of_not_mem h1 hl
              simp only [handleEvent, hl, Except.ok.injEq, Prod.mk.injEq] at h
              obtain ⟨rfl, rfl⟩ := h
              refine ⟨⟨not_snd_mem_aremove h1, h2, h3, h4⟩, ?_⟩
              intro out hout
              rcases List.mem_singleton.mp hout with rfl
              simp [completes, beq_false_of_ne hs]
  | identifyReceived addr =>
      simp only [handleEvent, Except.ok.injEq, Prod.mk.injEq] at h
      obtain ⟨rfl, rfl⟩ := h
      refine ⟨⟨h1, h2, h3, h4⟩, ?_⟩
      intro out hout
      rcases List.mem_singleton.mp hout with rfl; rfl
  | rendezvousDiscovered ck regs =>
      simp only [handleEvent, Except.ok.injEq, Prod.mk.injEq] at h
      obtain ⟨rfl, rfl⟩ := h
      refine ⟨⟨h1, h2, h3, h4⟩, ?_⟩
      intro out hout
      obtain ⟨r, _, rfl⟩ := List.mem_map.mp hout
      rfl
  | mdnsDiscovered peers =>
      simp only [handleEvent, Except.ok.injEq, Prod.mk.injEq] at h
      obtain ⟨rfl, rfl⟩ := h
      refine ⟨⟨h1, h2, h3, h4⟩, ?_⟩
      intro out hout
      obtain ⟨r, _, rfl⟩ := List.mem_map.mp hout
      rfl
  | mdnsExpired peers =>
      simp only [handleEvent, Except.ok.injEq, Prod.mk.injEq] at h
      obtain ⟨rfl, rfl⟩ := h
      refine ⟨⟨h1, h2, h3, h4⟩, ?_⟩
      intro out hout
      obtain ⟨r, _, rfl⟩ := List.mem_map.mp hout
      rfl
  | other =>
      simp only [handleEvent, Except.ok.injEq, Prod.mk.injEq] at h
      obtain ⟨rfl, rfl⟩ := h
      refine ⟨⟨h1, h2, h3, h4⟩, ?_⟩
      intro out hout
      rcases List.mem_singleton.mp hout with rfl; rfl

/- The startup actions of run() complete no reply sink. -/

theorem startup_no_completion (σ : Nat) (s : EventLoopState) :
    ∀ out ∈ startupOutputs s, completes σ out = false := by
  intro out hout
  unfold startupOutputs at hout
  rcases List.mem_append.mp hout with hab | hc
  · rcases List.mem_append.mp hab with ha | hb
    · cases he : s.external_address <;> rw [he] at ha
      · cases ha
      · rcases List.mem_singleton.mp ha with rfl; rfl
    · cases he : s.rendezvous_point_address <;> rw [he] at hb
      · cases hb
      · rcases List.mem_singleton.mp hb with rfl; rfl
  · cases he : s.rendezvous_point <;> rw [he] at hc
    · rcases List.mem_singleton.mp hc with rfl; rfl
    · rcases List.mem_singleton.mp hc with rfl; rfl

/- Driving the loop over σ-safe inputs adds no completion of σ to the
   output trace, as long as the loop exits by returning. -/

theorem runLoop_no_new_completion {σ rid : Nat} :
    ∀ (inputs : List LoopInput) (s : EventLoopState) (acc : List Output)
      (s' : EventLoopState) (outs : List Output),
      sinkFresh σ rid s →
      (∀ i ∈ inputs, inputSafe rid σ i) →
      runLoop s inputs acc = .returned s' outs →
      outs.filter (completes σ) = acc.filter (completes σ) := by
  intro inputs
  induction inputs with
  | nil =>
      intro s acc s' outs _ _ hrun
      simp [runLoop] at hrun
  | cons i rest ih =>
      intro s acc s' outs hfresh hsafe hrun
      have hsafeHead : inputSafe rid σ i := hsafe i (List.mem_cons_self i rest)
      have hsafeRest : ∀ j ∈ rest, inputSafe rid σ j :=
        fun j hj => hsafe j (List.mem_cons_of_mem i hj)
      cases i with
      | cancelled =>
          simp only [runLoop, RunResult.returned.injEq] at hrun
          obtain ⟨rfl, rfl⟩ := hrun
          rfl
      | channelClosed =>
          simp only [runLoop, RunResult.returned.injEq] at hrun
          obtain ⟨rfl, rfl⟩ := hrun
          rfl
      | swarm e =>
          cases hstep : handleEvent s e with
          | error p => simp [runLoop, hstep] at hrun
          | ok pr =>
              obtain ⟨s1, o1⟩ := pr
              obtain ⟨hfresh1, hclean⟩ := handleEvent_safe hfresh hsafeHead hstep
              have hrun' : runLoop s1 rest (acc ++ o1) = .returned s' outs := by
                simpa [runLoop, hstep] using hrun
              have hmain := ih s1 (acc ++ o1) s' outs hfresh1 hsafeRest hrun'
              have ho1 : o1.filter (completes σ) = [] := by
                rw [List.filter_eq_nil_iff]
                intro a ha
                simp [hclean a ha]
              rw [hmain, List.filter_append, ho1, List.append_nil]
      | command c o =>
          cases hstep : handleCommand s c o with
          | error p => simp [runLoop, hstep] at hrun
          | ok pr =>
              obtain ⟨s1, o1⟩ := pr
              obtain ⟨hfresh1, hclean⟩ := handleCommand_safe hfresh hsafeHead hstep
              have hrun' : runLoop s1 rest (acc ++ o1) = .returned s' outs := by
                simpa [runLoop, hstep] using hrun
              have hmain := ih s1 (acc ++ o1) s' outs hfresh1 hsafeRest hrun'
              have ho1 : o1.filter (completes σ) = [] := by
                rw [List.filter_eq_nil_iff]
                intro a ha
                simp [hclean a ha]
              rw [hmain, List.filter_append, ho1, List.append_nil]
      | tick =>
          cases hrp : s.rendezvous_point with
          | some p =>
              have hrun' :
                  runLoop s rest (acc ++ [.rendezvousDiscover s.nspace s.cookie]) =
                    .returned s' outs := by
                simpa [runLoop, hrp] using hrun
              have hmain := ih s _ s' outs hfresh hsafeRest hrun'
              rw [hmain, List.filter_append]
              simp [completes]
          | none =>
              have hrun' : runLoop s rest acc = .returned s' outs := by
                simpa [runLoop, hrp] using hrun
              exact ih s acc s' outs hfresh hsafeRest hrun'

/- ------------------------------------------------------------------
   Claim theorems.
   ------------------------------------------------------------------ -/

/-- Claim C1: a RequestAgent command registers an entry for the outbound
request id in pending_request; the Response event for that id removes the
entry and completes the sink exactly once with Ok of exactly the body the
provider supplied through RespondLLM (the step's output trace is the
single completion, and the entry is gone afterwards); an OutboundFailure
for that id instead completes the sink exactly once with the transport
error; and the provider's RespondLLM sends exactly its llm_output bytes. -/
theorem c1_requestAgent_matching
    (s sB : EventLoopState) (a m : String) (p σ ch eo : Nat)
    (o oB : SwarmOracle) (body : List Nat)
    (hresp : oB.sendResponseResult = .ok ()) :
    handleCommand s (.requestAgent a m p σ) o =
      .ok ({ s with pending_request := ainsert o.sendRequestId σ s.pending_request },
           [.sendRequest p a m]) ∧
    alookup o.sendRequestId (ainsert o.sendRequestId σ s.pending_request) = some σ ∧
    handleCommand sB (.respondLLM body ch) oB = .ok (sB, [.sendResponse ch body]) ∧
    handleEvent { s with pending_request := ainsert o.sendRequestId σ s.pending_request }
        (.rrResponse o.sendRequestId body) =
      .ok ({ s with pending_request :=
               aremove o.sendRequestId (ainsert o.sendRequestId σ s.pending_request) },
           [.bytesOk σ body]) ∧
    alookup o.sendRequestId
        (aremove o.sendRequestId (ainsert o.sendRequestId σ s.pending_request)) = none ∧
    handleEvent { s with pending_request := ainsert o.sendRequestId σ s.pending_request }
        (.rrOutboundFailure o.sendRequestId eo) =
      .ok ({ s with pending_request :=
               aremove o.sendRequestId (ainsert o.sendRequestId σ s.pending_request) },
           [.bytesErr σ eo]) := by
  refine ⟨rfl, alookup_ainsert_self _ _ _, ?_, ?_, alookup_aremove_self _ _, ?_⟩
  · simp [handleCommand, hresp]
  · simp [handleEvent, alookup_ainsert_self]
  · simp [handleEvent, alookup_ainsert_self]

/-- Witness for C1 at concrete inputs: request id 0, sink 5, body bytes
[72, 105]. -/
theorem c1_witness :
    handleCommand emptyLoopState (.requestAgent "w" "q" 2 5) oracle0 =
      .ok ({ emptyLoopState with pending_request := ainsert 0 5 [] },
           [.sendRequest 2 "w" "q"]) ∧
    alookup 0 (ainsert 0 5 []) = some 5 ∧
    handleCommand emptyLoopState (.respondLLM [72, 105] 7) oracle0 =
      .ok (emptyLoopState, [.sendResponse 7 [72, 105]]) ∧
    handleEvent { emptyLoopState with pending_request := ainsert 0 5 [] }
        (.rrResponse 0 [72, 105]) =
      .ok ({ emptyLoopState with pending_request := aremove 0 (ainsert 0 5 []) },
           [.bytesOk 5 [72, 105]]) ∧
    alookup 0 (aremove 0 (ainsert 0 5 [])) = none ∧
    handleEvent { emptyLoopState with pending_request := ainsert 0 5 [] }
        (.rrOutboundFailure 0 9) =
      .ok ({ emptyLoopState with pending_request := aremove 0 (ainsert 0 5 []) },
           [.bytesErr 5 9]) :=
  c1_requestAgent_matching emptyLoopState emptyLoopState "w" "q" 2 5 7 9
    oracle0 oracle0 [72, 105] rfl

/-- Claim C2 counterexample: with seed 1 and additional_topics = ["alerts"],
new also subscribes to the peer-id topic, a topic outside
{everyone, capabilities, alerts}, so the subscribed set after
bootstrapping is not exactly {everyone, capabilities} ∪ T. -/
theorem c2_counterexample :
    seed1PeerIdTopic ∈ subscribedAfterBootstrap seed1PeerIdTopic ["alerts"] ∧
    ¬(seed1PeerIdTopic = "everyone" ∨ seed1PeerIdTopic = "capabilities" ∨
      seed1PeerIdTopic ∈ (["alerts"] : List String)) := by
  decide

/-- Claim C2 amended: after new(seed, T) and the bootstrap hook, the node
is subscribed to exactly {everyone, capabilities, base58(peer_id)} ∪ T. -/
theorem c2_amended_subscribed_set
    (peer_id_topic : String) (additional_topics : List String) (t : String) :
    t ∈ subscribedAfterBootstrap peer_id_topic additional_topics ↔
      (t = "everyone" ∨ t = "capabilities" ∨ t = peer_id_topic ∨
        t ∈ additional_topics) := by
  simp only [subscribedAfterBootstrap, newSubscribeTopics,
    AsnBehaviourMod.bootstrapSubscribeTopics, NetworkLib.EVERYONE_TOPIC,
    AsnBehaviourMod.EVERYONE_TOPIC, AsnBehaviourMod.CAPABILITIES_TOPIC,
    List.append_assoc, List.cons_append, List.nil_append, List.mem_append,
    List.mem_cons, List.not_mem_nil, or_false]
  tauto

/-- Claim C3 counterexample: the construction entry point configures
identify with "/agentic-network/1.0.0", not "/asn/1.0.0". -/
theorem c3_counterexample :
    newNodeProtocols.identify_protocol_version ≠ "/asn/1.0.0" := by
  decide

/-- Claim C3 amended: the entry point advertises "/agentic-network/1.0.0"
as its identify protocol version and uses the same string as the
request/response stream protocol; the string "/asn/1.0.0" appears only in
AsnBehaviour, which the entry point never constructs (also with matching
identify and stream strings). -/
theorem c3_amended_protocol_strings :
    newNodeProtocols.identify_protocol_version = "/agentic-network/1.0.0" ∧
    newNodeProtocols.request_response_stream_protocol =
      newNodeProtocols.identify_protocol_version ∧
    asnBehaviourProtocols.identify_protocol_version = "/asn/1.0.0" ∧
    asnBehaviourProtocols.request_response_stream_protocol =
      asnBehaviourProtocols.identify_protocol_version :=
  ⟨rfl, rfl, rfl, rfl⟩

/-- Claim C4 counterexample: a StartProviding result, a request/response
Response, or an OutboundFailure whose id is not in the corresponding
pending table makes the event loop panic (the expect calls), contradicting
the claim that it logs and discards. -/
theorem c4_counterexample :
    handleEvent emptyLoopState (.kadStartProvidingProgressed 0) =
      .error panicCompletedQuery ∧
    handleEvent emptyLoopState (.rrResponse 0 []) = .error panicRequestPending ∧
    handleEvent emptyLoopState (.rrOutboundFailure 0 0) =
      .error panicRequestPending :=
  ⟨rfl, rfl, rfl⟩

/-- Claim C4 amended: an unknown-id terminal panics the loop for
StartProviding results, Responses and OutboundFailures (expect), while an
unknown-id GetProviders FoundProviders event is discarded benignly with
the state unchanged. -/
theorem c4_amended_unknown_id_panics
    (s : EventLoopState) (qid rid rid2 gq e : Nat) (b ps : List Nat)
    (h1 : alookup qid s.pending_start_providing = none)
    (h2 : alookup rid s.pending_request = none)
    (h3 : alookup rid2 s.pending_request = none)
    (h4 : alookup gq s.pending_get_providers = none) :
    handleEvent s (.kadStartProvidingProgressed qid) = .error panicCompletedQuery ∧
    handleEvent s (.rrResponse rid b) = .error panicRequestPending ∧
    handleEvent s (.rrOutboundFailure rid2 e) = .error panicRequestPending ∧
    handleEvent s (.kadGetProvidersFound gq ps) = .ok (s, []) := by
  refine ⟨?_, ?_, ?_, ?_⟩ <;> simp [handleEvent, h1, h2, h3, h4]

/-- Witness for C4 amended at the empty state. -/
theorem c4_witness :
    handleEvent emptyLoopState (.kadStartProvidingProgressed 1) =
      .error panicCompletedQuery ∧
    handleEvent emptyLoopState (.rrResponse 1 [2]) = .error panicRequestPending ∧
    handleEvent emptyLoopState (.rrOutboundFailure 2 3) = .error panicRequestPending ∧
    handleEvent emptyLoopState (.kadGetProvidersFound 1 [4]) =
      .ok (emptyLoopState, []) :=
  c4_amended_unknown_id_panics emptyLoopState 1 1 2 1 3 [2] [4] rfl rfl rfl rfl

/-- Claim C5 counterexample: a Dial for peer 1, which already has an
outstanding pending dial, makes handle_command hit the
todo!("Already dialing peer.") panic; no reply with a DuplicateDial error
kind is ever produced. -/
theorem c5_counterexample :
    handleCommand { emptyLoopState with pending_dial := [(1, 5)] }
        (.dial 1 [4] 6) oracle0 = .error panicAlreadyDialing :=
  rfl

/-- Claim C5 amended: when a Dial names a peer with an outstanding
pending_dial entry, the event loop panics via the todo! placeholder; the
second caller receives no DuplicateDial reply and the loop aborts rather
than continuing. -/
theorem c5_amended_duplicate_dial_panics
    (s : EventLoopState) (p : Nat) (addr : List Nat) (σ σp : Nat) (o : SwarmOracle)
    (h : alookup p s.pending_dial = some σp) :
    handleCommand s (.dial p addr σ) o = .error panicAlreadyDialing := by
  simp [handleCommand, h]

/-- Witness for C5 amended at a concrete busy state. -/
theorem c5_witness :
    handleCommand { emptyLoopState with pending_dial := [(2, 8)] }
        (.dial 2 [3] 9) oracle0 = .error panicAlreadyDialing :=
  c5_amended_duplicate_dial_panics { emptyLoopState with pending_dial := [(2, 8)] }
    2 [3] 9 8 oracle0 rfl

/-- Claim C6 counterexample: at a state whose pending_get_providers holds
query 5 with sink 9, the FinishedWithNoAdditionalRecord terminal for query
5 only logs: the state (and hence the entry) is unchanged, and the single
output is not a completion of sink 9, so the caller's reply does not
resolve with the empty set and the entry is not consumed. -/
theorem c6_counterexample :
    handleEvent { emptyLoopState with pending_get_providers := [(5, 9)] }
        (.kadGetProvidersFinished 5) =
      .ok ({ emptyLoopState with pending_get_providers := [(5, 9)] }, [.logOnly]) ∧
    alookup 5 [(5, 9)] = some 9 ∧
    completes 9 Output.logOnly = false :=
  ⟨rfl, rfl, rfl⟩

/-- Claim C6 amended: on the FinishedWithNoAdditionalRecord terminal the
loop only logs; the pending_get_providers entry is retained, and no reply
sink is completed by this event (the reply resolves only from an earlier
FoundProviders event or when the loop shuts down and drops the sink). -/
theorem c6_amended_finished_logs_only (s : EventLoopState) (qid : Nat) :
    handleEvent s (.kadGetProvidersFinished qid) = .ok (s, [.logOnly]) ∧
    ∀ σ : Nat, completes σ Output.logOnly = false :=
  ⟨rfl, fun _ => rfl⟩

/-- Claim C7: when the cancellation token fires the loop breaks out and
returns with the state (and so every pending reply sink) dropped; a caller
whose RequestAgent was accepted and whose terminal never arrived before
the cancellation observes a closed-channel error on the pending reply, not
a value. -/
theorem c7_cancellation_closed_channel
    (s : EventLoopState) (a m : String) (p σ : Nat) (o : SwarmOracle)
    (rest : List LoopInput) (s' : EventLoopState) (outs : List Output)
    (hun : sinkUnused σ s)
    (hsafe : ∀ i ∈ rest, inputSafe o.sendRequestId σ i)
    (hrun : run s (.command (.requestAgent a m p σ) o :: rest) = .returned s' outs) :
    (∀ (s0 : EventLoopState) (tail : List LoopInput) (acc : List Output),
        runLoop s0 (.cancelled :: tail) acc = .returned s0 acc) ∧
    observesClosedChannel σ (.returned s' outs) = true := by
  refine ⟨fun s0 tail acc => rfl, ?_⟩
  have hstep : handleCommand s (.requestAgent a m p σ) o =
      .ok ({ s with pending_request := ainsert o.sendRequestId σ s.pending_request },
           [.sendRequest p a m]) := rfl
  have hrun' :
      runLoop { s with pending_request := ainsert o.sendRequestId σ s.pending_request }
        rest (startupOutputs s ++ [.sendRequest p a m]) = .returned s' outs := by
    simpa [run, runLoop, hstep] using hrun
  have hfresh1 : sinkFresh σ o.sendRequestId
      { s with pending_request := ainsert o.sendRequestId σ s.pending_request } := by
    obtain ⟨h1, h2, h3, h4⟩ := hun
    refine ⟨h1, h2, h3, ?_⟩
    intro pr hpr he
    rcases List.mem_cons.mp hpr with rfl | hpr2
    · rfl
    · exact absurd (List.mem_map.mpr ⟨pr, mem_of_mem_aremove hpr2, he⟩) h4
  have hfilter := runLoop_no_new_completion rest _ _ s' outs hfresh1 hsafe hrun'
  have hacc : (startupOutputs s ++ [Output.sendRequest p a m]).filter (completes σ) =
      [] := by
    rw [List.filter_append]
    have hsu : (startupOutputs s).filter (completes σ) = [] := by
      rw [List.filter_eq_nil_iff]
      intro x hx
      simp [startup_no_completion σ s x hx]
    rw [hsu]
    simp [completes]
  rw [hacc] at hfilter
  simp only [observesClosedChannel, Bool.not_eq_true']
  rw [List.any_eq_false]
  intro x hx
  have hxf := List.filter_eq_nil_iff.mp hfilter x hx
  simpa using hxf

/-- Witness for C7: an accepted RequestAgent (request id 0, sink 3)
followed immediately by cancellation; the loop returns and the caller
observes the closed channel. -/
theorem c7_witness :
    (∀ (s0 : EventLoopState) (tail : List LoopInput) (acc : List Output),
        runLoop s0 (.cancelled :: tail) acc = .returned s0 acc) ∧
    observesClosedChannel 3
      (.returned ⟨[], [], [], [(0, 3)], none, none, none, none, none⟩
        [Output.logOnly, Output.sendRequest 1 "x" "y"]) = true :=
  c7_cancellation_closed_channel emptyLoopState "x" "y" 1 3 oracle0 [.cancelled]
    ⟨[], [], [], [(0, 3)], none, none, none, none, none⟩
    [Output.logOnly, Output.sendRequest 1 "x" "y"]
    (by decide)
    (by intro i hi; rw [List.mem_singleton] at hi; subst hi; trivial)
    (by rfl)

/-- Claim C8: no command ever makes handle_command invoke a behaviour
bootstrap hook — the Command enum of types.rs has no Bootstrap variant and
handle_command has no arm for one, even though Client::bootstrap sends
Command::Bootstrap. -/
theorem c8_no_bootstrap_hook
    (s : EventLoopState) (c : Command) (o : SwarmOracle)
    (s' : EventLoopState) (outs : List Output)
    (h : handleCommand s c o = .ok (s', outs)) :
    Output.bootstrapHook ∉ outs := by
  cases c with
  | startListening addr sender =>
      cases hr : o.listenResult <;>
        · simp only [handleCommand, hr, Except.ok.injEq, Prod.mk.injEq] at h
          obtain ⟨rfl, rfl⟩ := h
          simp
  | dial peer_id peer_addr sender =>
      cases hd : alookup peer_id s.pending_dial with
      | some v => simp [handleCommand, hd] at h
      | none =>
          cases hr : o.dialResult <;>
            · simp only [handleCommand, hd, hr, Except.ok.injEq, Prod.mk.injEq] at h
              obtain ⟨rfl, rfl⟩ := h
              simp
  | startProviding agent_name sender =>
      cases hr : o.startProvidingResult <;>
        · simp only [handleCommand, hr, Except.ok.injEq, Prod.mk.injEq] at h
          obtain ⟨rfl, rfl⟩ := h
          simp
  | getProviders agent_name sender =>
      simp only [handleCommand, Except.ok.injEq, Prod.mk.injEq] at h
      obtain ⟨rfl, rfl⟩ := h
      simp
  | requestAgent agent_name message peer sender =>
      simp only [handleCommand, Except.ok.injEq, Prod.mk.injEq] at h
      obtain ⟨rfl, rfl⟩ := h
      simp
  | respondLLM llm_output channel =>
      cases hr : o.sendResponseResult <;>
        · simp only [handleCommand, hr, Except.ok.injEq, Prod.mk.injEq] at h
          obtain ⟨rfl, rfl⟩ := h
          simp
  | gossipMessage topic message =>
      cases hr : o.publishResult <;>
        · simp only [handleCommand, hr, Except.ok.injEq, Prod.mk.injEq] at h
          obtain ⟨rfl, rfl⟩ := h
          simp

/-- Witness for C8 at a concrete command. -/
theorem c8_witness : Output.bootstrapHook ∉ [Output.gossipPublish "t" "m"] :=
  c8_no_bootstrap_hook emptyLoopState (.gossipMessage "t" "m") oracle0
    emptyLoopState [Output.gossipPublish "t" "m"] rfl

/-- Claim C9: with Some(seed), construction derives the key pair from the
32-byte buffer whose first byte is the seed and whose other 31 bytes are
zero; the derivation does not depend on fresh entropy, so two runs with
the same seed get the same key pair and the same peer id. -/
theorem c9_seed_derivation_determinism (s : Nat) (h : s < 256) :
    (seedBytes s).length = 32 ∧
    (seedBytes s).head? = some s ∧
    (seedBytes s).drop 1 = List.replicate 31 0 ∧
    (∀ e1 e2 : Nat,
      id_keys (some s) e1 = id_keys (some s) e2 ∧
      to_peer_id (id_keys (some s) e1) = to_peer_id (id_keys (some s) e2)) :=
  ⟨rfl, rfl, rfl, fun _ _ => ⟨rfl, rfl⟩⟩

/-- Witness for C9 at seed byte 7. -/
theorem c9_witness :
    (seedBytes 7).length = 32 ∧
    (seedBytes 7).head? = some 7 ∧
    (seedBytes 7).drop 1 = List.replicate 31 0 ∧
    (∀ e1 e2 : Nat,
      id_keys (some 7) e1 = id_keys (some 7) e2 ∧
      to_peer_id (id_keys (some 7) e1) = to_peer_id (id_keys (some 7) e2)) :=
  c9_seed_derivation_determinism 7 (by decide)

/-- Claim C10: a Dial for a peer with no pending entry whose swarm dial
call fails immediately completes the reply sink with that error and leaves
the state — in particular every pending table — unchanged. -/
theorem c10_dial_error_atomicity
    (s : EventLoopState) (p : Nat) (addr : List Nat) (σ e : Nat) (o : SwarmOracle)
    (hvacant : alookup p s.pending_dial = none)
    (hdial : o.dialResult = .error e) :
    handleCommand s (.dial p addr σ) o =
      .ok (s, [.kadAddAddress p addr, .unitErr σ e]) := by
  simp [handleCommand, hvacant, hdial]

/-- Witness for C10 at the empty state with a failing dial. -/
theorem c10_witness :
    handleCommand emptyLoopState (.dial 1 [2] 4)
        ⟨.ok (), .error 3, .ok 0, 0, 0, .ok (), .ok 0⟩ =
      .ok (emptyLoopState, [.kadAddAddress 1 [2], .unitErr 4 3]) :=
  c10_dial_error_atomicity emptyLoopState 1 [2] 4 3
    ⟨.ok (), .error 3, .ok 0, 0, 0, .ok (), .ok 0⟩ rfl rfl
